import Mathlib

/-!
# EduMate — shallow embedding of the recommendation / preference logic

This file embeds, in Lean 4, the parts of the EduMate Flask application that
the specification's claims are about:

* the preference-string parsing done on the dashboard and home page
  (`src/app.py`),
* the rule-based recommendation query builder
  (`src/routes/recommendation.py`, `get_rule_based_recommendations`),
* the trending query (`src/routes/recommendation.py`, `trending`),
* the click / helpfulness feedback updates on the recommendations log
  (`src/routes/recommendation.py`, `api_click` / `api_feedback`),
* the activity upsert (`src/routes/content.py`, `record_activity`, and the
  activity part of `api_click`),
* the rating endpoint (`src/routes/content.py`, `rate`).

Modelling conventions:

* SQLite `REAL` values (ratings, scores) are modelled as `ℚ` (exact
  arithmetic standing in for the IEEE doubles the engine uses).
* Timestamps are modelled as natural numbers; a trailing time window
  `created_at >= date('now', '-N days')` is modelled by an explicit
  `cutoff : Nat` parameter with the comparison `cutoff ≤ created_at`.
* A nullable `TEXT` column is `Option String`; Python truthiness of such a
  value (`if user['preferred_content_types']:`) is `truthy` below.
* Tables are lists of row structures; a SQL `UPDATE ... WHERE p` is a `map`
  that rewrites exactly the rows satisfying `p`.
-/

namespace EduMate

/-- Python truthiness of a nullable TEXT column: `NULL` and the empty string
are falsy, every other string is truthy. -/
def truthy : Option String → Bool
  | none => false
  | some s => !(s == "")

/-- Characters stripped by Python `str.strip()` (whitespace). -/
def isWs (c : Char) : Bool := c.isWhitespace

/-- Drop leading and trailing whitespace characters from a character list. -/
def trimChars (l : List Char) : List Char :=
  ((l.dropWhile isWs).reverse.dropWhile isWs).reverse

/-- Python `str.strip()`: drop leading and trailing whitespace. -/
def pyStrip (s : String) : String :=
  String.mk (trimChars s.data)

/-- The single-quote character `U+0027`. -/
def squote : Char := Char.ofNat 39

/-- Python `s.replace(old, new)` for a one-character `old` (the only form
the embedded code uses): every occurrence of the character is replaced. -/
def pyReplaceChar (s : String) (old : Char) (new : String) : String :=
  String.mk ((s.data.map (fun c => if c == old then new.data else [c])).flatten)

/-- Worker for `pySplitChar`: accumulates the current chunk (reversed). -/
def pySplitCharAux (sep : Char) : List Char → List Char → List (List Char)
  | [], acc => [acc.reverse]
  | c :: rest, acc =>
    if c == sep then acc.reverse :: pySplitCharAux sep rest []
    else pySplitCharAux sep rest (c :: acc)

/-- Python `s.split(sep)` for a one-character separator: splitting the empty
string gives one empty chunk, and `n` separators give `n + 1` chunks. -/
def pySplitChar (sep : Char) (s : String) : List String :=
  (pySplitCharAux sep s.data []).map String.mk

/-- Python `s.startswith(pre)`. -/
def pyStartsWith (s pre : String) : Bool :=
  pre.data.isPrefixOf s.data

/-- Numeric value of a list of decimal digits. -/
def digitsVal (ds : List Char) : Nat :=
  ds.foldl (fun acc c => acc * 10 + (c.toNat - '0'.toNat)) 0

/-- Conversion of a string to a natural number when it is entirely decimal
digits (used for SQLite's INTEGER-affinity comparison). -/
def pyToNat? (s : String) : Option Nat :=
  if !s.data.isEmpty && s.data.all Char.isDigit then some (digitsVal s.data) else none

/-- Python `s.strip('[]')`: drop leading and trailing `[` / `]` characters. -/
def stripBrackets (s : String) : String :=
  String.mk (((s.data.dropWhile (fun c => c == '[' || c == ']')).reverse.dropWhile
    (fun c => c == '[' || c == ']')).reverse)

/-- `[t.strip() for t in s.split(',') if t.strip()]`: split on commas, strip
each token, discard tokens that are empty after stripping. -/
def splitCommaClean (s : String) : List String :=
  ((pySplitChar ',' s).map pyStrip).filter (fun t => !(t == ""))

/-- A scalar JSON value, as produced by `json.loads` on the flat list
strings these preference fields hold (string or integer elements). -/
inductive JVal where
  | jstr (s : String)
  | jint (n : Int)
deriving DecidableEq, Repr

/-- Drop leading JSON whitespace. -/
def skipWs (cs : List Char) : List Char := cs.dropWhile isWs

/-- Parse the body of a JSON string after the opening quote, up to the
closing quote.  Escape sequences are not modelled: an input containing a
backslash is treated as a parse failure (such inputs do not occur in the
preference format; failing here only sends the caller to the manual
fallback parse, as a `json.loads` error would). -/
def parseStrBody : List Char → Option (List Char × List Char)
  | [] => none
  | c :: rest =>
    if c == '"' then some ([], rest)
    else if c == '\\' then none
    else (parseStrBody rest).map (fun p => (c :: p.1, p.2))

/-- Parse one scalar JSON element (a double-quoted string or an integer). -/
def parseScalar (cs : List Char) : Option (JVal × List Char) :=
  match skipWs cs with
  | '"' :: rest => (parseStrBody rest).map (fun p => (.jstr (String.mk p.1), p.2))
  | '-' :: rest =>
      let ds := rest.takeWhile Char.isDigit
      if ds.isEmpty then none
      else some (.jint (-(Int.ofNat (digitsVal ds))), rest.dropWhile Char.isDigit)
  | cs2 =>
      let ds := cs2.takeWhile Char.isDigit
      if ds.isEmpty then none
      else some (.jint (Int.ofNat (digitsVal ds)), cs2.dropWhile Char.isDigit)

/-- Parse a non-empty comma-separated list of scalars up to the closing
bracket.  `fuel` bounds recursion (the input length suffices). -/
def parseItems : Nat → List Char → Option (List JVal × List Char)
  | 0, _ => none
  | Nat.succ fuel, cs =>
    match parseScalar cs with
    | none => none
    | some (v, rest) =>
      match skipWs rest with
      | ',' :: rest2 =>
        match parseItems fuel rest2 with
        | some (vs, r) => some (v :: vs, r)
        | none => none
      | ']' :: rest2 => some ([v], rest2)
      | _ => none

/-- `json.loads` restricted to flat arrays of scalars (the only JSON shapes
the stored preference fields take).  Anything else — nested values, floats,
booleans, trailing garbage, malformed input — yields `none`, modelling the
`json.JSONDecodeError` that sends the Python code into its fallback branch. -/
def jsonLoadsList (s : String) : Option (List JVal) :=
  match skipWs s.data with
  | '[' :: rest =>
    match skipWs rest with
    | ']' :: rest2 => if (skipWs rest2).isEmpty then some [] else none
    | cs =>
      match parseItems (cs.length + 1) cs with
      | some (vs, r) => if (skipWs r).isEmpty then some vs else none
      | none => none
  | _ => none

/-- The dashboard / home-page parse of a stored preference list
(`src/app.py` lines 315–341 and 165–185):

* if the string starts with `[`, replace single quotes by double quotes and
  try `json.loads`;
* if that fails, strip leading/trailing brackets, delete single-quote
  characters, split on commas, strip tokens, discard empty tokens;
* a string not starting with `[` is split on commas directly, with the same
  stripping and discarding.

Manual-parse tokens come back as Python strings, modelled as `JVal.jstr`. -/
def parsePrefList (s : String) : List JVal :=
  if pyStartsWith s "[" then
    match jsonLoadsList (pyReplaceChar s squote "\"") with
    | some l => l
    | none => (splitCommaClean (pyReplaceChar (stripBrackets s) squote "")).map .jstr
  else (splitCommaClean s).map .jstr

/-! ## Data model (`src/database/sqlite_init.py`) -/

/-- A row of the `content` table (the columns the embedded logic reads). -/
structure Content where
  id : Nat
  type : String
  title : String
  description : String
  difficulty_level : String
  category_id : Option Nat
  is_published : Bool
  average_rating : ℚ
  rating_count : Nat
  download_count : Nat
  view_count : Nat
  created_at : Nat
deriving DecidableEq, Repr

/-- A row of the `categories` table. -/
structure Category where
  id : Nat
  name : String
deriving DecidableEq, Repr

/-- A row of the `user_activities` table (the columns the logic touches). -/
structure ActivityRow where
  user_id : Nat
  content_id : Nat
  activity_type : String
  created_at : Nat
deriving DecidableEq, Repr

/-- A row of the `recommendations` log table. -/
structure RecommendationRow where
  user_id : Nat
  content_id : Nat
  recommendation_type : String
  score : ℚ
  reason : String
  was_clicked : Bool
  was_helpful : Option Bool
  created_at : Nat
deriving DecidableEq, Repr

/-- A row of the `content_feedback` table. -/
structure FeedbackRow where
  content_id : Nat
  user_id : Nat
  rating : Int
  comment : String
  created_at : Nat
  updated_at : Nat
deriving DecidableEq, Repr

/-- A row of the `users` table (the columns read here). -/
structure UserRow where
  id : Nat
  interests : Option String
  role : String
deriving DecidableEq, Repr

/-- A row of the `user_preferences` table (unique per `user_id`). -/
structure PrefRow where
  user_id : Nat
  preferred_difficulty : Option String
  preferred_content_types : Option String
  preferred_categories : Option String
  learning_goals : Option String
deriving DecidableEq, Repr

/-- The database state the embedded routes read and write. -/
structure Db where
  users : List UserRow
  preferences : List PrefRow
  categories : List Category
  content : List Content
  activities : List ActivityRow
  recommendations : List RecommendationRow
  feedback : List FeedbackRow
deriving DecidableEq, Repr

/-- `LEFT JOIN categories cat ON c.category_id = cat.id` followed by reading
`cat.name`: `none` models the SQL NULL produced when there is no match. -/
def catName (db : Db) (c : Content) : Option String :=
  c.category_id.bind (fun cid => (db.categories.find? (fun k => k.id == cid)).map (·.name))

/-- The dashboard/home queries compare a parsed preference token against a
TEXT column with `IN`.  A string token compares literally; an integer token
(from a JSON list of numbers) is compared through SQLite's TEXT-affinity
conversion, i.e. against its decimal rendering. -/
def jvalMatchesText (v : JVal) (s : String) : Bool :=
  match v with
  | .jstr t => t == s
  | .jint n => toString n == s

/-! ## Dashboard and home-page recommendation widgets (`src/app.py`) -/

/-- The joined preference fields the dashboard / home page reads for a user
(`LEFT JOIN user_preferences`; all-NULL when no preference row exists). -/
structure UserPrefView where
  preferred_difficulty : Option String
  preferred_content_types : Option String
  preferred_categories : Option String
deriving DecidableEq, Repr

/-- Fetch the preference view for a user: `none` if the user row itself is
missing, otherwise the `LEFT JOIN`-ed preference columns. -/
def fetchPrefView (db : Db) (uid : Nat) : Option UserPrefView :=
  (db.users.find? (fun u => u.id == uid)).map (fun _ =>
    match db.preferences.find? (fun p => p.user_id == uid) with
    | some p => ⟨p.preferred_difficulty, p.preferred_content_types, p.preferred_categories⟩
    | none => ⟨none, none, none⟩)

/-- The content-type predicate the dashboard / home page adds:
`c.type IN (...)` when the raw field is truthy and parses to a non-empty
token list; no constraint otherwise. -/
def typeFilterPred (u : UserPrefView) (c : Content) : Bool :=
  if truthy u.preferred_content_types then
    let tl := parsePrefList (u.preferred_content_types.getD "")
    if tl.isEmpty then true else tl.any (fun v => jvalMatchesText v c.type)
  else true

/-- The difficulty predicate: exact match when the field is truthy and not
the literal string `mixed`; no constraint otherwise. -/
def difficultyFilterPred (u : UserPrefView) (c : Content) : Bool :=
  match u.preferred_difficulty with
  | some d => if !(d == "") && !(d == "mixed") then c.difficulty_level == d else true
  | none => true

/-- The dashboard category predicate: `cat.name IN (...)` over the joined
category name when the raw field is truthy and parses non-empty.  A content
row with no joined category has NULL `cat.name`, which `IN` rejects. -/
def categoryFilterPred (db : Db) (u : UserPrefView) (c : Content) : Bool :=
  if truthy u.preferred_categories then
    let cl := parsePrefList (u.preferred_categories.getD "")
    if cl.isEmpty then true
    else
      match catName db c with
      | some n => cl.any (fun v => jvalMatchesText v n)
      | none => false
  else true

/-- The dashboard personalized WHERE clause
(`c.is_published = 1` AND the three optional filters). -/
def dashboardWhere (db : Db) (u : UserPrefView) (c : Content) : Bool :=
  c.is_published && typeFilterPred u c && difficultyFilterPred u c
    && categoryFilterPred db u c

/-- `ORDER BY c.average_rating DESC, c.view_count DESC` as a total boolean
"comes no later than" relation for sorting. -/
def ratingViewLe (a b : Content) : Bool :=
  decide (b.average_rating < a.average_rating
    ∨ (a.average_rating = b.average_rating ∧ b.view_count ≤ a.view_count))

/-- The dashboard personalized recommendation query
(`src/app.py` lines 371–378): filtered published content ordered by rating
then views, `LIMIT 3`. -/
def dashboardPersonalized (db : Db) (u : UserPrefView) : List Content :=
  (((db.content.filter (dashboardWhere db u)).mergeSort ratingViewLe).take 3)

/-- The dashboard fallback query (`src/app.py` lines 388–395): all published
content ordered by rating then views, `LIMIT 3`. -/
def dashboardFallbackList (db : Db) : List Content :=
  (((db.content.filter (·.is_published)).mergeSort ratingViewLe).take 3)

/-- The dashboard fallback gate (`src/app.py` line 386):
`if not recommended_content and not user['preferred_content_types']` —
note that it tests the raw stored field, not the parsed token list. -/
def dashboardUsedFallback (db : Db) (u : UserPrefView) : Bool :=
  (dashboardPersonalized db u).isEmpty && !(truthy u.preferred_content_types)

/-- The recommendation list the dashboard finally shows. -/
def dashboardRecommended (db : Db) (u : UserPrefView) : List Content :=
  if dashboardUsedFallback db u then dashboardFallbackList db
  else dashboardPersonalized db u

/-- The home-page personalized WHERE clause (`src/app.py` lines 157–193):
published, content-type filter, difficulty filter (no category filter). -/
def indexWhere (u : UserPrefView) (c : Content) : Bool :=
  c.is_published && typeFilterPred u c && difficultyFilterPred u c

/-- The home-page featured query (`src/app.py` lines 200–205):
`ORDER BY RANDOM() LIMIT 6`.  The nondeterministic shuffle is an explicit
parameter (any permutation-producing function). -/
def indexPersonalized (shuffle : List Content → List Content) (db : Db)
    (u : UserPrefView) : List Content :=
  (shuffle (db.content.filter (indexWhere u))).take 6

/-- The home-page fallback query (`src/app.py` lines 213–218). -/
def indexFallbackList (shuffle : List Content → List Content) (db : Db) : List Content :=
  (shuffle (db.content.filter (·.is_published))).take 6

/-- The home-page fallback gate (`src/app.py` line 211):
`if not featured_content and not (user and user['preferred_content_types'])`
(for a logged-in user whose row exists). -/
def indexUsedFallback (shuffle : List Content → List Content) (db : Db)
    (u : UserPrefView) : Bool :=
  (indexPersonalized shuffle db u).isEmpty && !(truthy u.preferred_content_types)

/-- The featured-content list the home page finally shows. -/
def indexFeatured (shuffle : List Content → List Content) (db : Db)
    (u : UserPrefView) : List Content :=
  if indexUsedFallback shuffle db u then indexFallbackList shuffle db
  else indexPersonalized shuffle db u

/-! ## Rule-based recommendations (`src/routes/recommendation.py`) -/

/-- The recommendation score expression computed in the SQL SELECT:
`c.average_rating * 0.3 + c.download_count * 0.02 + c.view_count * 0.01`. -/
def recScore (average_rating download_count view_count : ℚ) : ℚ :=
  average_rating * 0.3 + download_count * 0.02 + view_count * 0.01

/-- The score of a content row. -/
def contentScore (c : Content) : ℚ :=
  recScore c.average_rating (c.download_count : ℚ) (c.view_count : ℚ)

/-- ASCII lowercasing, for SQLite's (ASCII-)case-insensitive `LIKE`. -/
def asciiLower (s : String) : String := String.mk (s.data.map Char.toLower)

/-- Whether `needle` occurs as a contiguous segment of `hay`. -/
def listIsInfixOf (needle hay : List Char) : Bool :=
  hay.tails.any (fun t => needle.isPrefixOf t)

/-- `column LIKE ?` with a pattern that wraps `pat` between two percent
signs: case-insensitive substring containment. -/
def likeContains (pat s : String) : Bool :=
  listIsInfixOf (asciiLower pat).data (asciiLower s).data

/-- Python stringification of a parsed JSON scalar (as an f-string does when
building the LIKE pattern). -/
def jvalToPyStr : JVal → String
  | .jstr s => s
  | .jint n => toString n

/-- One dynamically assembled WHERE condition: its SQL text (placeholders
included) and its semantics as a predicate on a content row. -/
structure QueryCond where
  sql : String
  sem : Content → Bool

/-- A parameter bound to a SQL placeholder. -/
inductive SqlParam where
  | pint (n : Int)
  | pstr (s : String)
deriving DecidableEq, Repr

/-- `','.join(['?'] * n)`. -/
def inPlaceholders (n : Nat) : String :=
  String.intercalate "," (List.replicate n "?")

/-- The user-plus-preferences row `get_rule_based_recommendations` fetches
(`LEFT JOIN user_preferences`). -/
structure RecUserData where
  interests : Option String
  preferred_difficulty : Option String
  preferred_content_types : Option String
  preferred_categories : Option String
deriving DecidableEq, Repr

/-- Fetch the joined user data; `none` when the user row is missing. -/
def fetchRecUserData (db : Db) (uid : Nat) : Option RecUserData :=
  (db.users.find? (fun u => u.id == uid)).map (fun u =>
    match db.preferences.find? (fun p => p.user_id == uid) with
    | some p => ⟨u.interests, p.preferred_difficulty, p.preferred_content_types,
                 p.preferred_categories⟩
    | none => ⟨u.interests, none, none, none⟩)

/-- Content ids the user viewed within the trailing 30-day window
(`cutoff30` models `date('now', '-30 days')`). -/
def viewedContent (db : Db) (uid : Nat) (cutoff30 : Nat) : List Nat :=
  (db.activities.filter (fun a =>
    a.user_id == uid && a.activity_type == "viewed" && decide (cutoff30 ≤ a.created_at))).map
    (·.content_id)

/-- Comparing a parsed category value against the INTEGER `c.category_id`
column: a NULL id matches nothing (`NULL IN (...)` is not true); an integer
value compares directly; a text value goes through SQLite's INTEGER-affinity
conversion, so only a fully numeric string can match. -/
def jvalMatchesId (v : JVal) (k : Option Nat) : Bool :=
  match k with
  | none => false
  | some k =>
    match v with
    | .jint n => n == (k : Int)
    | .jstr s => match pyToNat? s with
      | some m => m == k
      | none => false

/-- The interest condition block (`src/routes/recommendation.py` lines
69–79): attempt `json.loads` on the stored interests; on success with a
non-empty list add one OR-block of `c.title LIKE ? OR c.description LIKE ?`
per interest; a parse error (or an empty list) contributes nothing.
Non-list JSON values are treated as parse failures here (the user routes
only ever store a JSON list in this column). -/
def interestsCond (interests : String) : Option (QueryCond × List SqlParam) :=
  match jsonLoadsList interests with
  | some l =>
    if l.isEmpty then none
    else some
      (⟨"(" ++ String.intercalate " OR "
          (l.map (fun _ => "c.title LIKE ? OR c.description LIKE ?")) ++ ")",
        fun c => l.any (fun v =>
          likeContains (jvalToPyStr v) c.title || likeContains (jvalToPyStr v) c.description)⟩,
       (l.map (fun v =>
         [SqlParam.pstr ("%" ++ jvalToPyStr v ++ "%"),
          SqlParam.pstr ("%" ++ jvalToPyStr v ++ "%")])).flatten)
  | none => none

/-- The preferred-categories condition block (lines 82–89): `json.loads` on
the stored field; on success with a non-empty list add
`c.category_id IN (...)`; a parse error contributes nothing. -/
def categoriesCond (cats : String) : Option (QueryCond × List SqlParam) :=
  match jsonLoadsList cats with
  | some l =>
    if l.isEmpty then none
    else some
      (⟨"c.category_id IN (" ++ inPlaceholders l.length ++ ")",
        fun c => l.any (fun v => jvalMatchesId v c.category_id)⟩,
       l.map (fun v => match v with
         | .jstr s => SqlParam.pstr s
         | .jint n => SqlParam.pint n))
  | none => none

/-- Assemble `where_conditions` and `params` exactly as the source does
(lines 56–89): the constant published condition, the viewed-content
exclusion, the difficulty filter, the interest OR-block, the category
membership filter, in that order. -/
def rbConditions (db : Db) (uid : Nat) (cutoff30 : Nat) : List QueryCond × List SqlParam :=
  let userData := fetchRecUserData db uid
  let viewed := viewedContent db uid cutoff30
  let acc : List QueryCond × List SqlParam :=
    ([⟨"c.is_published = TRUE", fun c => c.is_published⟩], [])
  let acc :=
    if viewed.isEmpty then acc
    else (acc.1 ++ [⟨"c.id NOT IN (" ++ inPlaceholders viewed.length ++ ")",
            fun c => !(viewed.contains c.id)⟩],
          acc.2 ++ viewed.map (fun n => SqlParam.pint n))
  let acc :=
    match userData with
    | some ud =>
      match ud.preferred_difficulty with
      | some d =>
        if !(d == "") && !(d == "mixed") then
          (acc.1 ++ [⟨"c.difficulty_level = ?", fun c => c.difficulty_level == d⟩],
           acc.2 ++ [SqlParam.pstr d])
        else acc
      | none => acc
    | none => acc
  let acc :=
    match userData with
    | some ud =>
      match ud.interests with
      | some i =>
        if !(i == "") then
          match interestsCond i with
          | some (q, ps) => (acc.1 ++ [q], acc.2 ++ ps)
          | none => acc
        else acc
      | none => acc
    | none => acc
  let acc :=
    match userData with
    | some ud =>
      match ud.preferred_categories with
      | some cs =>
        if !(cs == "") then
          match categoriesCond cs with
          | some (q, ps) => (acc.1 ++ [q], acc.2 ++ ps)
          | none => acc
        else acc
      | none => acc
    | none => acc
  acc

/-- `' AND '.join(where_conditions)`. -/
def joinAnd : List String → String
  | [] => ""
  | [s] => s
  | s :: rest => s ++ " AND " ++ joinAnd rest

/-- The `base_query` template (lines 92–107), whitespace normalized.  Its
operative feature is preserved exactly: it contains two `?` characters, one
as the WHERE placeholder and one as the LIMIT placeholder. -/
def rbBaseQuery : String :=
  "SELECT c.*, cat.name as category_name, u.full_name as uploader_name, " ++
  "(c.average_rating * 0.3 + c.download_count * 0.02 + c.view_count * 0.01) as score " ++
  "FROM content c LEFT JOIN categories cat ON c.category_id = cat.id " ++
  "LEFT JOIN users u ON c.uploaded_by = u.id " ++
  "WHERE ? ORDER BY score DESC, c.created_at DESC LIMIT ?"

/-- `final_query = base_query.replace('?', ' AND '.join(where_conditions))` —
Python `str.replace` replaces every occurrence, so the LIMIT placeholder is
substituted by the WHERE text as well. -/
def rbFinalQuery (whereJoin : String) : String :=
  pyReplaceChar rbBaseQuery '?' whereJoin

/-- Number of bindable `?` placeholders remaining in a query string. -/
def countPlaceholders (s : String) : Nat :=
  s.data.countP (fun c => c == '?')

/-- The text standing in the LIMIT position of the final query: after the
replace above it is the joined WHERE text. -/
def rbLimitClause (whereJoin : String) : String := whereJoin

/-- Whether SQLite accepts the LIMIT expression: the expression may not
reference table columns, so the forms this code could legitimately produce —
the original `?` placeholder or an integer literal — are accepted, while the
substituted WHERE text (which references `c.is_published` etc.) is rejected
at prepare time with a "no such column" error. -/
def limitExprOk (s : String) : Bool :=
  s == "?" || (!s.data.isEmpty && s.data.all Char.isDigit)

/-- `ORDER BY score DESC, c.created_at DESC` as a total boolean relation. -/
def rbLe (a b : Content) : Bool :=
  decide (contentScore b < contentScore a
    ∨ (contentScore a = contentScore b ∧ b.created_at ≤ a.created_at))

/-- The row set the final query would denote if it were executed: content
rows satisfying every assembled condition, ordered by score then recency,
truncated to the limit. -/
def rbQueryRows (db : Db) (conds : List QueryCond) (lim : Nat) : List Content :=
  ((db.content.filter (fun c => conds.all (fun q => q.sem c))).mergeSort rbLe).take lim

/-- `' AND '.join` of the SQL texts of the assembled conditions. -/
def rbWhereJoin (conds : List QueryCond) : String :=
  joinAnd (conds.map (fun q => q.sql))

/-- Executing the final query: SQLite first prepares the statement (failing
if the LIMIT expression references columns), then binds the parameters
(failing on a placeholder/parameter count mismatch), then yields rows. -/
def rbRun (db : Db) (conds : List QueryCond) (params : List SqlParam)
    (lim : Nat) : Except String (List Content) :=
  if !(limitExprOk (rbLimitClause (rbWhereJoin conds))) then .error "no such column"
  else if countPlaceholders (rbFinalQuery (rbWhereJoin conds)) != params.length then
    .error "Incorrect number of bindings supplied"
  else .ok (rbQueryRows db conds lim)

/-- The recommendation-log row inserted for each returned row (lines
116–124). -/
def rbLogRow (uid : Nat) (now : Nat) (c : Content) : RecommendationRow :=
  { user_id := uid, content_id := c.id, recommendation_type := "rule_based",
    score := contentScore c, reason := "Rule-based: matches preferences and interests",
    was_clicked := false, was_helpful := none, created_at := now }

/-- `get_rule_based_recommendations(user_id, limit=10)`: returns `[]` when
no connection is obtained; otherwise builds and runs the final query; any
exception is caught and yields `[]` with the transaction uncommitted (state
unchanged); on success the returned rows are appended to the
recommendations log and returned. -/
def getRuleBasedRecommendations (connOk : Bool) (db : Db) (uid : Nat)
    (cutoff30 now lim : Nat) : List Content × Db :=
  if !connOk then ([], db)
  else
    match rbRun db (rbConditions db uid cutoff30).1
        ((rbConditions db uid cutoff30).2 ++ [SqlParam.pint lim]) lim with
    | .error _ => ([], db)
    | .ok recs =>
      (recs, { db with recommendations := db.recommendations ++ recs.map (rbLogRow uid now) })

/-! ## Trending (`src/routes/recommendation.py`, `trending`) -/

/-- `COUNT(ua.id)` over the LEFT JOIN restricted to the trailing 7-day
window (`cutoff7` models `date('now', '-7 days')`). -/
def recentActivityCount (db : Db) (cutoff7 : Nat) (c : Content) : Nat :=
  (db.activities.filter (fun a =>
    a.content_id == c.id && decide (cutoff7 ≤ a.created_at))).length

/-- `ORDER BY recent_activities DESC, c.average_rating DESC,
c.created_at DESC` as a total boolean relation. -/
def trendLe (db : Db) (cutoff7 : Nat) (a b : Content) : Bool :=
  decide (recentActivityCount db cutoff7 b < recentActivityCount db cutoff7 a
    ∨ (recentActivityCount db cutoff7 a = recentActivityCount db cutoff7 b ∧
        (b.average_rating < a.average_rating
          ∨ (a.average_rating = b.average_rating ∧ b.created_at ≤ a.created_at))))

/-- The trending query (lines 161–179): published content ordered by recent
activity count, then rating, then recency, `LIMIT 20`.  The route only
reads; the returned state is the state it leaves behind. -/
def trending (db : Db) (cutoff7 : Nat) : List Content × Db :=
  (((db.content.filter (·.is_published)).mergeSort (trendLe db cutoff7)).take 20, db)

/-! ## Click / helpfulness feedback (`api_click`, `api_feedback`) -/

/-- The WHERE clause shared by both feedback UPDATEs:
`user_id = ? AND content_id = ? AND created_at >= <cutoff>`. -/
def recWindowMatches (uid cid cutoff : Nat) (r : RecommendationRow) : Bool :=
  r.user_id == uid && r.content_id == cid && decide (cutoff ≤ r.created_at)

/-- `UPDATE recommendations SET was_clicked = TRUE WHERE user_id = ? AND
content_id = ? AND created_at >= date('now', '-1 day')` (lines 229–234):
rewrites every matching row. -/
def clickUpdateRecs (uid cid cutoff1 : Nat) (recs : List RecommendationRow) :
    List RecommendationRow :=
  recs.map (fun r =>
    if recWindowMatches uid cid cutoff1 r then { r with was_clicked := true } else r)

/-- `UPDATE recommendations SET was_helpful = ? WHERE user_id = ? AND
content_id = ? AND created_at >= date('now', '-7 days')` (lines 285–290). -/
def feedbackUpdateRecs (uid cid : Nat) (helpful : Bool) (cutoff7 : Nat)
    (recs : List RecommendationRow) : List RecommendationRow :=
  recs.map (fun r =>
    if recWindowMatches uid cid cutoff7 r then { r with was_helpful := some helpful } else r)

/-! ## Activity upsert (`record_activity`, `api_click`) -/

/-- The `(user_id, content_id, activity_type)` triple match used by the
existence check before inserting an activity. -/
def tripleMatches (uid cid : Nat) (atype : String) (a : ActivityRow) : Bool :=
  a.user_id == uid && a.content_id == cid && a.activity_type == atype

/-- `SELECT id ... fetchone()` followed by `UPDATE ... WHERE id = ?`: set
`created_at` on the first row satisfying `p` (row ids being unique, the
fetched id designates exactly the first match). -/
def updateFirstCreatedAt (p : ActivityRow → Bool) (now : Nat) :
    List ActivityRow → List ActivityRow
  | [] => []
  | a :: rest =>
    if p a then { a with created_at := now } :: rest
    else a :: updateFirstCreatedAt p now rest

/-- The shared upsert: if a row with the triple exists, refresh its
timestamp; otherwise insert a fresh row. -/
def upsertActivity (uid cid : Nat) (atype : String) (now : Nat)
    (acts : List ActivityRow) : List ActivityRow :=
  if acts.any (tripleMatches uid cid atype) then
    updateFirstCreatedAt (tripleMatches uid cid atype) now acts
  else acts ++ [⟨uid, cid, atype, now⟩]

/-- Content-existence check in `record_activity`: admins see every row,
others only published rows. -/
def contentVisible (db : Db) (cid : Nat) (isAdmin : Bool) : Bool :=
  if isAdmin then db.content.any (fun c => c.id == cid)
  else db.content.any (fun c => c.id == cid && c.is_published)

/-- The state effect of `record_activity` (`src/routes/content.py` lines
699–771): reject invalid activity types, reject missing/unpublished
content, then upsert. -/
def recordActivity (db : Db) (uid cid : Nat) (atype : String) (isAdmin : Bool)
    (now : Nat) : Db :=
  if !(["viewed", "completed", "bookmarked"].contains atype) then db
  else if !(contentVisible db cid isAdmin) then db
  else { db with activities := upsertActivity uid cid atype now db.activities }

/-- The state effect of `api_click` (lines 229–258): flag matching log rows
in the 1-day window, then upsert a `viewed` activity. -/
def apiClick (db : Db) (uid cid cutoff1 now : Nat) : Db :=
  { db with
    recommendations := clickUpdateRecs uid cid cutoff1 db.recommendations,
    activities := upsertActivity uid cid "viewed" now db.activities }

/-- The state effect of `api_feedback` (lines 285–292). -/
def apiFeedback (db : Db) (uid cid : Nat) (helpful : Bool) (cutoff7 : Nat) : Db :=
  { db with recommendations := feedbackUpdateRecs uid cid helpful cutoff7 db.recommendations }

/-- The activity-recording operations C8 quantifies over. -/
inductive ActOp where
  | record (uid cid : Nat) (atype : String) (isAdmin : Bool) (now : Nat)
  | click (uid cid cutoff1 now : Nat)
deriving DecidableEq, Repr

/-- Apply one activity-recording operation to the database state. -/
def applyActOp (db : Db) : ActOp → Db
  | .record uid cid atype isAdmin now => recordActivity db uid cid atype isAdmin now
  | .click uid cid cutoff1 now => apiClick db uid cid cutoff1 now

/-! ## Rating endpoint (`src/routes/content.py`, `rate`) -/

/-- The ratings currently stored for a content id. -/
def feedbackRatings (fb : List FeedbackRow) (cid : Nat) : List Int :=
  (fb.filter (fun f => f.content_id == cid)).map (·.rating)

/-- `COALESCE(AVG(CAST(rating AS FLOAT)), 0)` in exact arithmetic: the mean
of the stored ratings, `0` when none exist. -/
def feedbackAvg (fb : List FeedbackRow) (cid : Nat) : ℚ :=
  let rs := feedbackRatings fb cid
  if rs.length = 0 then 0
  else ((rs.map (fun r => (r : ℚ))).sum) / (rs.length : ℚ)

/-- `SELECT COUNT(*) FROM content_feedback WHERE content_id = ?`. -/
def feedbackCount (fb : List FeedbackRow) (cid : Nat) : Nat :=
  (feedbackRatings fb cid).length

/-- The `(content_id, user_id)` match used by the rating upsert. -/
def pairMatches (cid uid : Nat) (f : FeedbackRow) : Bool :=
  f.content_id == cid && f.user_id == uid

/-- The state effect of a successful `rate` call (lines 619–687): validate
the rating (`if not rating or not (1 <= int(rating) <= 5)` — zero and
out-of-range values are rejected before any write, returning `none`),
upsert the feedback row for `(content_id, user_id)`, then recompute the
content row's denormalized `average_rating` and `rating_count` from the
feedback table. -/
def rate (db : Db) (uid cid : Nat) (rating : Int) (comment : String)
    (now : Nat) : Option Db :=
  if rating = 0 ∨ rating < 1 ∨ 5 < rating then none
  else
    let fb := db.feedback
    let fb2 :=
      if fb.any (pairMatches cid uid) then
        fb.map (fun f =>
          if pairMatches cid uid f then
            { f with rating := rating, comment := comment, updated_at := now }
          else f)
      else fb ++ [⟨cid, uid, rating, comment, now, now⟩]
    some { db with
      feedback := fb2,
      content := db.content.map (fun c =>
        if c.id == cid then
          { c with average_rating := feedbackAvg fb2 cid,
                   rating_count := feedbackCount fb2 cid }
        else c) }

/-! ## Concrete states used by the closed theorems -/

/-- A published content row with empty optional attributes. -/
def pubContent : Content :=
  { id := 1, type := "video", title := "Algebra", description := "Linear maps",
    difficulty_level := "beginner", category_id := none, is_published := true,
    average_rating := 4, rating_count := 2, download_count := 3, view_count := 5,
    created_at := 100 }

/-- A user with no interests and (in `dbPub`) no preference row. -/
def noPrefsUser : UserRow := { id := 1, interests := none, role := "student" }

/-- A state with one published content row, a user with all preferences
empty, and no activity history. -/
def dbPub : Db :=
  { users := [noPrefsUser], preferences := [], categories := [], content := [pubContent],
    activities := [], recommendations := [], feedback := [] }

/-! ## Helper lemmas -/

theorem dropWhile_dropWhile_eq (p : Char → Bool) (l : List Char) :
    List.dropWhile p (List.dropWhile p l) = List.dropWhile p l := by
  induction l with
  | nil => simp
  | cons a t ih =>
    by_cases h : p a
    · simp [List.dropWhile_cons, h, ih]
    · simp [List.dropWhile_cons, h]

theorem dropWhile_eq_self_of_prefix {p : Char → Bool} {l l2 : List Char}
    (h : List.dropWhile p l = l) (hp : l2 <+: l) : List.dropWhile p l2 = l2 := by
  cases l2 with
  | nil => simp
  | cons a t =>
    obtain ⟨r, hr⟩ := hp
    by_cases hpa : p a
    · exfalso
      rw [← hr, List.cons_append] at h
      rw [List.dropWhile_cons] at h
      simp only [hpa, if_true] at h
      have h1 : (List.dropWhile p (t ++ r)).length ≤ (t ++ r).length :=
        (List.dropWhile_sublist p).length_le
      have h2 := congrArg List.length h
      rw [List.length_cons] at h2
      omega
    · simp [List.dropWhile_cons, hpa]

theorem trimChars_idem (l : List Char) : trimChars (trimChars l) = trimChars l := by
  unfold trimChars
  set u := l.dropWhile isWs with hu
  set v := u.reverse.dropWhile isWs with hv
  have hself : List.dropWhile isWs u = u := by
    rw [hu]; exact dropWhile_dropWhile_eq isWs l
  have hvpre : v.reverse <+: u := by
    have h1 : v <:+ u.reverse := by rw [hv]; exact List.dropWhile_suffix isWs
    have h2 := List.reverse_prefix.mpr h1
    simpa using h2
  have h2 : List.dropWhile isWs v.reverse = v.reverse :=
    dropWhile_eq_self_of_prefix hself hvpre
  rw [h2, List.reverse_reverse]
  have h3 : List.dropWhile isWs v = v := by
    rw [hv]; exact dropWhile_dropWhile_eq isWs u.reverse
  rw [h3]

theorem pyStrip_idem (s : String) : pyStrip (pyStrip s) = pyStrip s :=
  congrArg String.mk (trimChars_idem s.data)

theorem splitCommaClean_mem {s t : String} (h : t ∈ splitCommaClean s) :
    t ≠ "" ∧ pyStrip t = t := by
  unfold splitCommaClean at h
  rw [List.mem_filter] at h
  obtain ⟨hm, hne⟩ := h
  rw [List.mem_map] at hm
  obtain ⟨chunk, hchunk, rfl⟩ := hm
  exact ⟨by simpa using hne, pyStrip_idem chunk⟩

/-! ## C4 — monotonicity of the recommendation score -/

/-- C4: the recommendation score
`0.3 * average_rating + 0.02 * download_count + 0.01 * view_count` is
monotonically non-decreasing in each of its three arguments, the other two
held fixed. -/
theorem claim_C4 (a a2 d d2 v v2 : ℚ) :
    (a ≤ a2 → recScore a d v ≤ recScore a2 d v) ∧
    (d ≤ d2 → recScore a d v ≤ recScore a d2 v) ∧
    (v ≤ v2 → recScore a d v ≤ recScore a d v2) := by
  refine ⟨fun h => ?_, fun h => ?_, fun h => ?_⟩
  · have := mul_le_mul_of_nonneg_right h (show (0 : ℚ) ≤ 0.3 by norm_num)
    unfold recScore; linarith
  · have := mul_le_mul_of_nonneg_right h (show (0 : ℚ) ≤ 0.02 by norm_num)
    unfold recScore; linarith
  · have := mul_le_mul_of_nonneg_right h (show (0 : ℚ) ≤ 0.01 by norm_num)
    unfold recScore; linarith

/-- Witness for C4 at concrete arguments. -/
theorem claim_C4_witness :
    ((1 : ℚ) ≤ 2 ∧ recScore 1 5 7 ≤ recScore 2 5 7) ∧
    ((5 : ℚ) ≤ 6 ∧ recScore 1 5 7 ≤ recScore 1 6 7) ∧
    ((7 : ℚ) ≤ 8 ∧ recScore 1 5 7 ≤ recScore 1 5 8) :=
  ⟨⟨by norm_num, (claim_C4 1 2 5 5 7 7).1 (by norm_num)⟩,
   ⟨by norm_num, (claim_C4 1 1 5 6 7 7).2.1 (by norm_num)⟩,
   ⟨by norm_num, (claim_C4 1 1 5 5 7 8).2.2 (by norm_num)⟩⟩

/-! ## C5 — preference-string parsing -/

/-- C5 as stated is false on one point: in the manual fallback branch
(structured parse failed) only brackets and single-quote characters are
removed — double-quote characters survive into the tokens.  On the
bracketed but malformed input consisting of two double-quoted words with no
closing bracket, the structured parse fails and the fallback yields tokens
that still carry their double quotes, not the bare words the claim's
"brackets/quotes are stripped" predicts. -/
theorem claim_C5_counterexample :
    pyStartsWith "[\"video\",\"document\"" "[" = true ∧
    jsonLoadsList (pyReplaceChar "[\"video\",\"document\"" squote "\"") = none ∧
    parsePrefList "[\"video\",\"document\"" =
      [JVal.jstr "\"video\"", JVal.jstr "\"document\""] ∧
    parsePrefList "[\"video\",\"document\"" ≠ [JVal.jstr "video", JVal.jstr "document"] := by
  refine ⟨by decide, by decide, by decide, by decide⟩

/-- C5 (amended): parsing `['video','document']` yields exactly
`video, document`; a bracketed field is parsed structurally (after turning
single quotes into double quotes); on failure brackets and single-quote
characters are stripped (double quotes are left in place) and the remainder
split on commas; a plain string is split on commas; and empty/whitespace
tokens are discarded. -/
theorem claim_C5 :
    (parsePrefList "['video','document']" = [JVal.jstr "video", JVal.jstr "document"]) ∧
    (∀ s : String, pyStartsWith s "[" = false →
      parsePrefList s = (splitCommaClean s).map JVal.jstr) ∧
    (∀ (s : String) (l : List JVal), pyStartsWith s "[" = true →
      jsonLoadsList (pyReplaceChar s squote "\"") = some l → parsePrefList s = l) ∧
    (∀ s : String, pyStartsWith s "[" = true →
      jsonLoadsList (pyReplaceChar s squote "\"") = none →
      parsePrefList s =
        (splitCommaClean (pyReplaceChar (stripBrackets s) squote "")).map JVal.jstr) ∧
    (∀ s t : String, t ∈ splitCommaClean s → t ≠ "" ∧ pyStrip t = t) := by
  refine ⟨by decide, ?_, ?_, ?_, ?_⟩
  · intro s hs; simp [parsePrefList, hs]
  · intro s l hs hj; simp [parsePrefList, hs, hj]
  · intro s hs hj; simp [parsePrefList, hs, hj]
  · intro s t h; exact splitCommaClean_mem h

/-- Witness for C5 at a concrete plain (non-bracketed) input. -/
theorem claim_C5_witness :
    pyStartsWith "video, document" "[" = false ∧
    parsePrefList "video, document" =
      (splitCommaClean "video, document").map JVal.jstr :=
  ⟨by decide, claim_C5.2.1 "video, document" (by decide)⟩

/-! ## C1 / C6 — the rule-based feed -/

theorem rbConditions_head (db : Db) (uid cutoff30 : Nat) :
    ∃ tail, (rbConditions db uid cutoff30).1 =
      { sql := "c.is_published = TRUE", sem := fun c => c.is_published } :: tail := by
  simp only [rbConditions]
  repeat' split
  all_goals exact ⟨_, rfl⟩

theorem limitExprOk_append_pub (x : String) :
    limitExprOk ("c.is_published = TRUE AND " ++ x) = false := by
  unfold limitExprOk
  have h1 : (("c.is_published = TRUE AND " ++ x) == "?") = false := by
    apply beq_eq_false_iff_ne.mpr
    intro h
    have h2 := congrArg String.length h
    rw [String.length_append] at h2
    have h3 : ("c.is_published = TRUE AND " : String).length = 26 := by decide
    have h4 : ("?" : String).length = 1 := by decide
    omega
  have h2 : (("c.is_published = TRUE AND " ++ x).data.all Char.isDigit) = false := by
    rw [String.data_append, List.all_append]
    have h3 : (("c.is_published = TRUE AND " : String).data.all Char.isDigit) = false := by
      decide
    simp [h3]
  rw [h1, h2]
  simp

theorem limitExprOk_joinAnd (rest : List String) :
    limitExprOk (joinAnd ("c.is_published = TRUE" :: rest)) = false := by
  cases rest with
  | nil => decide
  | cons b t =>
    show limitExprOk ("c.is_published = TRUE" ++ " AND " ++ joinAnd (b :: t)) = false
    rw [show ("c.is_published = TRUE" ++ " AND " : String) = "c.is_published = TRUE AND "
      from rfl]
    exact limitExprOk_append_pub (joinAnd (b :: t))

theorem rbRun_always_errors (db : Db) (uid cutoff30 lim : Nat) (params : List SqlParam) :
    ∃ e, rbRun db (rbConditions db uid cutoff30).1 params lim = Except.error e := by
  obtain ⟨tail, htail⟩ := rbConditions_head db uid cutoff30
  unfold rbRun rbLimitClause rbWhereJoin
  rw [htail]
  have hfalse : limitExprOk (joinAnd
      (({ sql := "c.is_published = TRUE", sem := fun c => c.is_published } :: tail).map
        (fun q => q.sql))) = false := by
    rw [List.map_cons]
    exact limitExprOk_joinAnd (tail.map (fun q => q.sql))
  rw [hfalse]
  exact ⟨_, rfl⟩

/-- C1 (code bug): `get_rule_based_recommendations` never returns any
content and never logs anything — for every state it yields `([], db)`.
The final query is built with `base_query.replace('?', where_text)`, and
Python `str.replace` also substitutes the `LIMIT ?` placeholder, so the
prepared statement's LIMIT expression is the WHERE text, which references
columns and is rejected by SQLite; the caught exception yields `[]`.  In
particular, on a state with one published content row, a user whose stored
preferences are all empty and who has no activity history, the feed is
empty — not the top-scored published content the specification describes. -/
theorem claim_C1 :
    (∀ (connOk : Bool) (db : Db) (uid cutoff30 now lim : Nat),
        getRuleBasedRecommendations connOk db uid cutoff30 now lim = ([], db)) ∧
    (dbPub.content.filter (·.is_published) ≠ [] ∧
      fetchRecUserData dbPub 1 = some ⟨none, none, none, none⟩ ∧
      viewedContent dbPub 1 0 = [] ∧
      getRuleBasedRecommendations true dbPub 1 0 200 10 = ([], dbPub)) := by
  constructor
  · intro connOk db uid cutoff30 now lim
    cases connOk with
    | false => rfl
    | true =>
      obtain ⟨e, he⟩ := rbRun_always_errors db uid cutoff30 lim
        ((rbConditions db uid cutoff30).2 ++ [SqlParam.pint lim])
      unfold getRuleBasedRecommendations
      rw [if_neg (by simp)]
      rw [he]
  · exact ⟨by decide, by decide, by decide, by decide⟩

/-- C6: a missing storage connection yields the empty list with the state
unchanged, and any error during query execution is caught and likewise
yields the empty list with the state unchanged. -/
theorem claim_C6 (db : Db) (uid cutoff30 now lim : Nat) :
    getRuleBasedRecommendations false db uid cutoff30 now lim = ([], db) ∧
    (∀ e, rbRun db (rbConditions db uid cutoff30).1
        ((rbConditions db uid cutoff30).2 ++ [SqlParam.pint lim]) lim = Except.error e →
      getRuleBasedRecommendations true db uid cutoff30 now lim = ([], db)) := by
  constructor
  · rfl
  · intro e he
    unfold getRuleBasedRecommendations
    rw [if_neg (by simp)]
    rw [he]

/-- Witness for C6: on the concrete state `dbPub` the execution errs (the
broken LIMIT clause) and the function returns the empty list. -/
theorem claim_C6_witness :
    rbRun dbPub (rbConditions dbPub 1 0).1
      ((rbConditions dbPub 1 0).2 ++ [SqlParam.pint 10]) 10 =
        Except.error "no such column" ∧
    getRuleBasedRecommendations true dbPub 1 0 200 10 = ([], dbPub) :=
  ⟨rfl, (claim_C6 dbPub 1 0 200 10).2 "no such column" rfl⟩

/-! ## C2 / C9 — the fallback gate on the dashboard and home page -/

/-- A preference view with only a difficulty preference (no content-type,
no category), whose difficulty matches nothing in `dbPub`. -/
def prefsDiffOnly : UserPrefView := ⟨some "advanced", none, none⟩

/-- A preference view whose stored content-type field is the non-empty text
`[]`, which parses to an empty token set, plus a difficulty preference that
matches nothing in `dbPub`. -/
def prefsEmptyListTypes : UserPrefView := ⟨some "advanced", some "[]", none⟩

theorem map_eq_self_of_mem {α : Type} {f : α → α} :
    ∀ {l : List α}, (∀ a ∈ l, f a = a) → l.map f = l := by
  intro l h
  induction l with
  | nil => rfl
  | cons a t ih =>
    simp only [List.map_cons, h a (by simp)]
    rw [ih (fun b hb => h b (by simp [hb]))]

theorem dashboardFallbackList_ne_nil {db : Db}
    (h : ∃ c ∈ db.content, c.is_published = true) : dashboardFallbackList db ≠ [] := by
  obtain ⟨c, hc, hp⟩ := h
  have hf : c ∈ db.content.filter (·.is_published) :=
    List.mem_filter.mpr ⟨hc, by simp [hp]⟩
  have hne : db.content.filter (·.is_published) ≠ [] := List.ne_nil_of_mem hf
  unfold dashboardFallbackList
  intro htake
  rcases List.take_eq_nil_iff.mp htake with h3 | h3
  · omega
  · apply hne
    have h4 := congrArg List.length h3
    rw [List.length_mergeSort] at h4
    exact List.length_eq_zero.mp h4

/-- C2: on the dashboard and the home page, the fallback is used exactly
when the personalized query returns zero rows AND the raw stored
content-type preference is not set (NULL or empty); a user with only
category or difficulty preferences and zero matches gets the (non-empty,
whenever published content exists) fallback list, while a user with a
content-type preference and zero matches gets the empty list. -/
theorem claim_C2 (db : Db) (u : UserPrefView) :
    (dashboardUsedFallback db u = true ↔
      (dashboardPersonalized db u = [] ∧ truthy u.preferred_content_types = false)) ∧
    (dashboardUsedFallback db u = true →
      dashboardRecommended db u = dashboardFallbackList db) ∧
    (dashboardUsedFallback db u = false →
      dashboardRecommended db u = dashboardPersonalized db u) ∧
    (truthy u.preferred_content_types = true → dashboardPersonalized db u = [] →
      dashboardRecommended db u = []) ∧
    (truthy u.preferred_content_types = false → dashboardPersonalized db u = [] →
      (∃ c ∈ db.content, c.is_published = true) → dashboardRecommended db u ≠ []) ∧
    (∀ shuffle : List Content → List Content,
      (indexUsedFallback shuffle db u = true ↔
        (indexPersonalized shuffle db u = [] ∧ truthy u.preferred_content_types = false)) ∧
      (indexUsedFallback shuffle db u = true →
        indexFeatured shuffle db u = indexFallbackList shuffle db) ∧
      (truthy u.preferred_content_types = true → indexPersonalized shuffle db u = [] →
        indexFeatured shuffle db u = []) ∧
      ((∀ l, (shuffle l).length = l.length) →
        truthy u.preferred_content_types = false → indexPersonalized shuffle db u = [] →
        (∃ c ∈ db.content, c.is_published = true) → indexFeatured shuffle db u ≠ [])) := by
  refine ⟨?_, ?_, ?_, ?_, ?_, ?_⟩
  · simp [dashboardUsedFallback, List.isEmpty_iff]
  · intro h; simp [dashboardRecommended, h]
  · intro h; simp [dashboardRecommended, h]
  · intro h1 h2
    have hg : dashboardUsedFallback db u = false := by
      simp [dashboardUsedFallback, h1]
    simp [dashboardRecommended, hg, h2]
  · intro h1 h2 h3
    have hg : dashboardUsedFallback db u = true := by
      simp [dashboardUsedFallback, h1, h2]
    rw [dashboardRecommended, if_pos hg]
    exact dashboardFallbackList_ne_nil h3
  · intro shuffle
    refine ⟨?_, ?_, ?_, ?_⟩
    · simp [indexUsedFallback, List.isEmpty_iff]
    · intro h; simp [indexFeatured, h]
    · intro h1 h2
      have hg : indexUsedFallback shuffle db u = false := by
        simp [indexUsedFallback, h1]
      simp [indexFeatured, hg, h2]
    · intro hlen h1 h2 h3
      have hg : indexUsedFallback shuffle db u = true := by
        simp [indexUsedFallback, h1, h2]
      rw [indexFeatured, if_pos hg]
      obtain ⟨c, hc, hp⟩ := h3
      have hf : c ∈ db.content.filter (·.is_published) :=
        List.mem_filter.mpr ⟨hc, by simp [hp]⟩
      have hne : db.content.filter (·.is_published) ≠ [] := List.ne_nil_of_mem hf
      unfold indexFallbackList
      intro htake
      rcases List.take_eq_nil_iff.mp htake with h3 | h3
      · omega
      · apply hne
        have hl := hlen (db.content.filter (·.is_published))
        rw [h3] at hl
        exact List.length_eq_zero.mp hl.symm

/-- Witness for C2: in `dbPub`, a difficulty-only preference matching no
content still yields a non-empty (fallback) recommendation list. -/
theorem claim_C2_witness : dashboardRecommended dbPub prefsDiffOnly ≠ [] := by
  have hp : dashboardPersonalized dbPub prefsDiffOnly = [] := by
    unfold dashboardPersonalized
    rw [show dbPub.content.filter (dashboardWhere dbPub prefsDiffOnly) = [] from by decide]
    simp
  exact (claim_C2 dbPub prefsDiffOnly).2.2.2.2.1 (by decide) hp
    ⟨pubContent, by decide, by decide⟩

/-- C9: the fallback gate tests the raw stored `preferred_content_types`
field, not the parsed token list.  The stored values `[]` and ` , ` are
truthy text yet parse to an empty token set, so no content-type filter is
applied to the personalized query; with a difficulty preference matching
nothing, the personalized query is empty, the fallback is nevertheless not
triggered, and the user receives an empty recommendation list on both the
dashboard and the home page — even though published content exists. -/
theorem claim_C9 :
    truthy (some "[]") = true ∧
    truthy (some " , ") = true ∧
    parsePrefList "[]" = [] ∧
    parsePrefList " , " = [] ∧
    typeFilterPred prefsEmptyListTypes pubContent = true ∧
    dashboardPersonalized dbPub prefsEmptyListTypes = [] ∧
    dashboardUsedFallback dbPub prefsEmptyListTypes = false ∧
    dashboardRecommended dbPub prefsEmptyListTypes = [] ∧
    dashboardFallbackList dbPub ≠ [] ∧
    indexPersonalized id dbPub prefsEmptyListTypes = [] ∧
    indexUsedFallback id dbPub prefsEmptyListTypes = false ∧
    indexFeatured id dbPub prefsEmptyListTypes = [] ∧
    indexFallbackList id dbPub ≠ [] := by
  have hp : dashboardPersonalized dbPub prefsEmptyListTypes = [] := by
    unfold dashboardPersonalized
    rw [show dbPub.content.filter (dashboardWhere dbPub prefsEmptyListTypes) = []
      from by decide]
    simp
  have hg : dashboardUsedFallback dbPub prefsEmptyListTypes = false := by
    simp [dashboardUsedFallback, hp]
    decide
  refine ⟨by decide, by decide, by decide, by decide, by decide, hp, hg, ?_, ?_,
    by decide, by decide, by decide, by decide⟩
  · simp [dashboardRecommended, hg, hp]
  · exact dashboardFallbackList_ne_nil ⟨pubContent, by decide, by decide⟩

/-! ## C3 — click / helpfulness feedback updates -/

/-- An older unclicked recommendation-log row for user 1, content 2. -/
def recRowOld : RecommendationRow :=
  { user_id := 1, content_id := 2, recommendation_type := "rule_based", score := 1,
    reason := "r", was_clicked := false, was_helpful := none, created_at := 5 }

/-- A newer unclicked recommendation-log row for the same pair. -/
def recRowNew : RecommendationRow :=
  { user_id := 1, content_id := 2, recommendation_type := "rule_based", score := 1,
    reason := "r", was_clicked := false, was_helpful := none, created_at := 10 }

/-- C3 as stated is false: the UPDATE has no "most recent" restriction —
with two log rows for the same (user, content) pair both inside the window,
the click endpoint flags BOTH rows, so the older (not most recent) row is
not left unchanged; likewise for the helpfulness endpoint. -/
theorem claim_C3_counterexample :
    recRowOld.created_at < recRowNew.created_at ∧
    recWindowMatches 1 2 0 recRowOld = true ∧
    recWindowMatches 1 2 0 recRowNew = true ∧
    clickUpdateRecs 1 2 0 [recRowOld, recRowNew] =
      [{ recRowOld with was_clicked := true }, { recRowNew with was_clicked := true }] ∧
    { recRowOld with was_clicked := true } ≠ recRowOld ∧
    feedbackUpdateRecs 1 2 true 0 [recRowOld, recRowNew] =
      [{ recRowOld with was_helpful := some true },
       { recRowNew with was_helpful := some true }] ∧
    { recRowOld with was_helpful := some true } ≠ recRowOld := by
  refine ⟨by decide, by decide, by decide, by decide, by decide, by decide, by decide⟩

/-- C3 (amended): the click endpoint sets `was_clicked` on EVERY
recommendation-log row for the (user, content) pair created within the
trailing 1-day window — not only the most recent — and the helpfulness
endpoint sets `was_helpful` on every such row within the trailing 7-day
window; each row outside the window (or for another pair) is left exactly
as it was, no rows are added or removed, and when no row matches the log is
unchanged. -/
theorem claim_C3 (uid cid cutoff1 cutoff7 : Nat) (helpful : Bool)
    (recs : List RecommendationRow) :
    ((clickUpdateRecs uid cid cutoff1 recs).length = recs.length) ∧
    ((feedbackUpdateRecs uid cid helpful cutoff7 recs).length = recs.length) ∧
    (∀ (i : Nat) (h : i < recs.length)
        (h2 : i < (clickUpdateRecs uid cid cutoff1 recs).length),
      (clickUpdateRecs uid cid cutoff1 recs).get ⟨i, h2⟩ =
        (if recWindowMatches uid cid cutoff1 (recs.get ⟨i, h⟩) then
          { recs.get ⟨i, h⟩ with was_clicked := true }
        else recs.get ⟨i, h⟩)) ∧
    (∀ (i : Nat) (h : i < recs.length)
        (h2 : i < (feedbackUpdateRecs uid cid helpful cutoff7 recs).length),
      (feedbackUpdateRecs uid cid helpful cutoff7 recs).get ⟨i, h2⟩ =
        (if recWindowMatches uid cid cutoff7 (recs.get ⟨i, h⟩) then
          { recs.get ⟨i, h⟩ with was_helpful := some helpful }
        else recs.get ⟨i, h⟩)) ∧
    ((∀ r ∈ recs, recWindowMatches uid cid cutoff1 r = false) →
      clickUpdateRecs uid cid cutoff1 recs = recs) ∧
    ((∀ r ∈ recs, recWindowMatches uid cid cutoff7 r = false) →
      feedbackUpdateRecs uid cid helpful cutoff7 recs = recs) := by
  refine ⟨by simp [clickUpdateRecs], by simp [feedbackUpdateRecs], ?_, ?_, ?_, ?_⟩
  · intro i h h2
    simp [clickUpdateRecs, List.get_eq_getElem, List.getElem_map]
  · intro i h h2
    simp [feedbackUpdateRecs, List.get_eq_getElem, List.getElem_map]
  · intro hnone
    unfold clickUpdateRecs
    exact map_eq_self_of_mem (fun r hr => by simp [hnone r hr])
  · intro hnone
    unfold feedbackUpdateRecs
    exact map_eq_self_of_mem (fun r hr => by simp [hnone r hr])

/-- Witness for C3 at a concrete log: the single in-window row is flagged,
and a log with no matching row is unchanged. -/
theorem claim_C3_witness :
    (clickUpdateRecs 1 2 0 [recRowOld]).get ⟨0, by decide⟩ =
      { recRowOld with was_clicked := true } ∧
    feedbackUpdateRecs 3 4 true 0 [recRowOld] = [recRowOld] := by
  constructor
  · have h := (claim_C3 1 2 0 0 true [recRowOld]).2.2.1 0 (by decide) (by decide)
    rw [h]
    decide
  · exact (claim_C3 3 4 0 0 true [recRowOld]).2.2.2.2.2 (by decide)

/-! ## C7 — the trending feed -/

theorem trendLe_trans (db : Db) (cutoff7 : Nat) (a b c : Content)
    (hab : trendLe db cutoff7 a b = true) (hbc : trendLe db cutoff7 b c = true) :
    trendLe db cutoff7 a c = true := by
  unfold trendLe at *
  simp only [decide_eq_true_eq] at *
  rcases hab with h1 | ⟨e1, h1⟩ <;> rcases hbc with h2 | ⟨e2, h2⟩
  · exact Or.inl (by omega)
  · exact Or.inl (by omega)
  · exact Or.inl (by omega)
  · refine Or.inr ⟨by omega, ?_⟩
    rcases h1 with r1 | ⟨f1, c1⟩ <;> rcases h2 with r2 | ⟨f2, c2⟩
    · exact Or.inl (by linarith)
    · exact Or.inl (by linarith)
    · exact Or.inl (by linarith)
    · exact Or.inr ⟨by linarith, by omega⟩

theorem trendLe_total (db : Db) (cutoff7 : Nat) (a b : Content) :
    (trendLe db cutoff7 a b || trendLe db cutoff7 b a) = true := by
  unfold trendLe
  simp only [Bool.or_eq_true, decide_eq_true_eq]
  rcases lt_trichotomy (recentActivityCount db cutoff7 a) (recentActivityCount db cutoff7 b)
    with h | h | h
  · exact Or.inr (Or.inl h)
  · rcases lt_trichotomy a.average_rating b.average_rating with h2 | h2 | h2
    · exact Or.inr (Or.inr ⟨h.symm, Or.inl h2⟩)
    · rcases le_total b.created_at a.created_at with h3 | h3
      · exact Or.inl (Or.inr ⟨h, Or.inr ⟨h2, h3⟩⟩)
      · exact Or.inr (Or.inr ⟨h.symm, Or.inr ⟨h2.symm, h3⟩⟩)
    · exact Or.inl (Or.inr ⟨h, Or.inl h2⟩)
  · exact Or.inl (Or.inl h)

/-- C7: the trending feed contains only published content, is ordered by
the count of activities in the trailing 7-day window descending, with ties
broken by average rating descending then creation time descending, holds at
most 20 rows (and is a permutation of all published content when there are
at most 20 published rows), and leaves the database — in particular the
recommendations log — untouched. -/
theorem claim_C7 (db : Db) (cutoff7 : Nat) :
    ((trending db cutoff7).2 = db) ∧
    ((trending db cutoff7).2.recommendations = db.recommendations) ∧
    (∀ c ∈ (trending db cutoff7).1, c.is_published = true ∧ c ∈ db.content) ∧
    ((trending db cutoff7).1.length ≤ 20) ∧
    (List.Pairwise (fun a b =>
      recentActivityCount db cutoff7 b < recentActivityCount db cutoff7 a ∨
      (recentActivityCount db cutoff7 a = recentActivityCount db cutoff7 b ∧
        (b.average_rating < a.average_rating ∨
          (a.average_rating = b.average_rating ∧ b.created_at ≤ a.created_at))))
      (trending db cutoff7).1) ∧
    ((db.content.filter (·.is_published)).length ≤ 20 →
      List.Perm (trending db cutoff7).1 (db.content.filter (·.is_published))) := by
  refine ⟨rfl, rfl, ?_, ?_, ?_, ?_⟩
  · intro c hc
    have hm := List.take_subset 20 _ hc
    rw [List.mem_mergeSort] at hm
    have hf := List.mem_filter.mp hm
    exact ⟨hf.2, hf.1⟩
  · exact List.length_take_le 20 _
  · have hs := @List.sorted_mergeSort Content (trendLe db cutoff7)
      (trendLe_trans db cutoff7) (trendLe_total db cutoff7)
      (db.content.filter (·.is_published))
    have hp := List.Pairwise.sublist (List.take_sublist 20 _) hs
    refine hp.imp (fun h => ?_)
    simpa [trendLe, decide_eq_true_eq] using h
  · intro hlen
    have h1 : ((db.content.filter (·.is_published)).mergeSort (trendLe db cutoff7)).length ≤ 20 := by
      rw [List.length_mergeSort]; exact hlen
    have h2 : (trending db cutoff7).1 =
        (db.content.filter (·.is_published)).mergeSort (trendLe db cutoff7) := by
      simp only [trending]
      exact List.take_of_length_le h1
    rw [h2]
    exact List.mergeSort_perm _ _

/-- Witness for C7: on the concrete state `dbPub` (one published row) the
trending feed is a permutation of the published content. -/
theorem claim_C7_witness :
    List.Perm (trending dbPub 0).1 (dbPub.content.filter (·.is_published)) :=
  (claim_C7 dbPub 0).2.2.2.2.2 (by decide)

/-! ## C8 — at most one activity row per (user, content, type) triple -/

/-- The uniqueness invariant on the `user_activities` table: at most one
row for every `(user_id, content_id, activity_type)` triple. -/
def AtMostOnePerTriple (acts : List ActivityRow) : Prop :=
  ∀ (uid cid : Nat) (atype : String), acts.countP (tripleMatches uid cid atype) ≤ 1

theorem countP_updateFirstCreatedAt (p q : ActivityRow → Bool) (now : Nat)
    (hq : ∀ a, q { a with created_at := now } = q a) :
    ∀ l : List ActivityRow, (updateFirstCreatedAt p now l).countP q = l.countP q := by
  intro l
  induction l with
  | nil => rfl
  | cons a t ih =>
    unfold updateFirstCreatedAt
    by_cases h : p a = true
    · simp [h, List.countP_cons, hq a]
    · simp [h, List.countP_cons, ih]

theorem length_updateFirstCreatedAt (p : ActivityRow → Bool) (now : Nat) :
    ∀ l : List ActivityRow, (updateFirstCreatedAt p now l).length = l.length := by
  intro l
  induction l with
  | nil => rfl
  | cons a t ih =>
    unfold updateFirstCreatedAt
    by_cases h : p a = true
    · simp [h]
    · simp [h, ih]

theorem upsertActivity_preserves (uid cid : Nat) (atype : String) (now : Nat)
    (acts : List ActivityRow) (h : AtMostOnePerTriple acts) :
    AtMostOnePerTriple (upsertActivity uid cid atype now acts) := by
  intro u2 c2 t2
  unfold upsertActivity
  by_cases hex : acts.any (tripleMatches uid cid atype) = true
  · rw [if_pos hex, countP_updateFirstCreatedAt _ _ _ (fun a => rfl)]
    exact h u2 c2 t2
  · rw [if_neg hex, List.countP_append]
    by_cases hq : tripleMatches u2 c2 t2 ⟨uid, cid, atype, now⟩ = true
    · simp only [tripleMatches, Bool.and_eq_true, beq_iff_eq] at hq
      obtain ⟨⟨h1, h2⟩, h3⟩ := hq
      subst h1; subst h2; subst h3
      have hz : acts.countP (tripleMatches uid cid atype) = 0 :=
        List.countP_eq_zero.mpr (List.any_eq_false.mp (Bool.not_eq_true _ ▸ hex))
      rw [hz]
      simp [List.countP_cons, tripleMatches]
    · have hone : List.countP (tripleMatches u2 c2 t2) [⟨uid, cid, atype, now⟩] = 0 := by
        simp [List.countP_cons, hq]
      rw [hone]
      simpa using h u2 c2 t2

theorem applyActOp_preserves (db : Db) (op : ActOp)
    (h : AtMostOnePerTriple db.activities) :
    AtMostOnePerTriple ((applyActOp db op).activities) := by
  cases op with
  | record uid cid atype isAdmin now =>
    simp only [applyActOp, recordActivity]
    split
    · exact h
    · split
      · exact h
      · exact upsertActivity_preserves uid cid atype now db.activities h
  | click uid cid cutoff1 now =>
    exact upsertActivity_preserves uid cid "viewed" now db.activities h

theorem foldl_applyActOp_preserves :
    ∀ (ops : List ActOp) (db : Db), AtMostOnePerTriple db.activities →
      AtMostOnePerTriple ((ops.foldl applyActOp db).activities) := by
  intro ops
  induction ops with
  | nil => intro db h; exact h
  | cons op rest ih => intro db h; exact ih _ (applyActOp_preserves db op h)

/-- C8: starting from any state where every `(user_id, content_id,
activity_type)` triple has at most one `user_activities` row, any sequence
of activity-recording operations (`record_activity`, `api_click`) preserves
that bound; recording an activity whose triple already exists refreshes the
existing row's timestamp and does not grow the table. -/
theorem claim_C8 (db : Db) (ops : List ActOp) :
    (AtMostOnePerTriple db.activities →
      AtMostOnePerTriple ((ops.foldl applyActOp db).activities)) ∧
    (∀ (uid cid now : Nat) (atype : String) (acts : List ActivityRow),
      acts.any (tripleMatches uid cid atype) = true →
      (upsertActivity uid cid atype now acts).length = acts.length) := by
  constructor
  · exact foldl_applyActOp_preserves ops db
  · intro uid cid now atype acts hex
    unfold upsertActivity
    rw [if_pos hex]
    exact length_updateFirstCreatedAt _ now acts

/-- Witness for C8: a concrete operation sequence on `dbPub` (two clicks on
the same content and a repeated view) keeps the invariant. -/
theorem claim_C8_witness :
    AtMostOnePerTriple (([ActOp.click 1 1 0 5, ActOp.click 1 1 0 9,
        ActOp.record 1 1 "viewed" false 12].foldl applyActOp dbPub).activities) :=
  (claim_C8 dbPub [ActOp.click 1 1 0 5, ActOp.click 1 1 0 9,
      ActOp.record 1 1 "viewed" false 12]).1
    (fun uid cid atype => by simp [dbPub])

/-! ## C10 — denormalized rating fields recomputed on rate -/

/-- C10: after every successful call to the rating endpoint, every content
row carrying the rated id has `average_rating` equal to the arithmetic mean
of that content's feedback ratings (0 when none exist) and `rating_count`
equal to the number of those feedback rows, both recomputed from the
feedback table as left by the same call. -/
theorem claim_C10 (db : Db) (uid cid : Nat) (rating : Int) (comment : String)
    (now : Nat) (db2 : Db) (h : rate db uid cid rating comment now = some db2) :
    ∀ c ∈ db2.content, c.id = cid →
      c.average_rating = feedbackAvg db2.feedback cid ∧
      c.rating_count = feedbackCount db2.feedback cid := by
  simp only [rate] at h
  split at h
  · exact absurd h (by simp)
  · rw [Option.some_inj] at h
    subst h
    intro c hc hcid
    simp only [List.mem_map] at hc
    obtain ⟨c0, hc0, rfl⟩ := hc
    by_cases h0 : (c0.id == cid) = true
    · constructor <;> simp [h0]
    · exfalso
      simp only [h0, if_false] at hcid
      exact h0 (beq_iff_eq.mpr hcid)

/-- Witness for C10: a concrete successful rating call on `dbPub`. -/
theorem claim_C10_witness :
    ∃ db2, rate dbPub 1 1 4 "ok" 50 = some db2 ∧
      ∀ c ∈ db2.content, c.id = 1 →
        c.average_rating = feedbackAvg db2.feedback 1 ∧
        c.rating_count = feedbackCount db2.feedback 1 :=
  ⟨_, rfl, claim_C10 dbPub 1 1 4 "ok" 50 _ rfl⟩

end EduMate
